import Mathlib

set_option maxHeartbeats 2000000
set_option maxRecDepth 20000

/-!
Shallow embedding of src/launchpad_jtag_finder.ino.

The probe drives candidate pins of the target and reads one response pin
per trial.  The target is outside the program, so reads are modelled as an
oracle stream: `oracle k` is the value returned by the k-th `read_pin`
call of the run.  `unsigned char` counters wrap modulo 256, and the
32-bit accumulator `idval` stays below 2 ^ 32 by construction.
-/

/-- Sampler state: the globals `byte_prev`, `toggle_count` (both
`unsigned char`) and `idval` (32-bit), lines 86-89 of the source. -/
structure Samp where
  prev : Bool
  tc : Nat
  acc : Nat
deriving DecidableEq

/-- One sampling step, lines 593-601 / 787-796 / 893-901 of the source:
if the read differs from `byte_prev` the toggle count is incremented
(8-bit wrap), `byte_prev` takes the read, `idval` shifts right and the
read becomes its top bit. -/
def observe (s : Samp) (b : Bool) : Samp :=
  { prev := b
    tc := if b ≠ s.prev then (s.tc + 1) % 256 else s.tc
    acc := if b then s.acc / 2 ||| 0x80000000 else s.acc / 2 &&& 0x7FFFFFFF }

/-- Toggle counting with the `unsigned char` counter `tc`,
lines 654-657 of the source (the nested tdi loop keeps no accumulator). -/
def togStep (s : Bool × Nat) (b : Bool) : Bool × Nat :=
  (b, if b ≠ s.1 then (s.2 + 1) % 256 else s.2)

/-- Toggle count of a sample list as the 8-bit counter computes it. -/
def togCountByte (l : List Bool) : Nat := (l.foldl togStep (false, 0)).2

/-- Unbounded toggle count of a sample list: the number of positions
whose sample differs from the previous one (previous sample starts 0).
This is the quantity the spec calls the toggle count. -/
def togCountNat (l : List Bool) : Nat :=
  (l.foldl (fun (s : Bool × Nat) b => (b, if b ≠ s.1 then s.2 + 1 else s.2))
    ((false : Bool), 0)).2

/-- The MSP430 port registers the pin layer touches. -/
structure Ports where
  p1dir : Nat
  p1ren : Nat
  p1out : Nat
  p2dir : Nat
  p2ren : Nat
  p2out : Nat
deriving DecidableEq

/-- Lines 104-114 of the source:
`P1DIR &= ~0xF9; P1REN |= 0xF9; P1OUT &= 0xF9;`
`P2DIR = 0x00; P2REN = 0xFF; P2OUT = 0xFF;`
(`~0xF9` on a byte is 0x06; note the P1OUT line masks with `&=`). -/
def set_all_pins_to_inputs (s : Ports) : Ports :=
  { p1dir := s.p1dir &&& 0x06
    p1ren := s.p1ren ||| 0xF9
    p1out := s.p1out &&& 0xF9
    p2dir := 0x00
    p2ren := 0xFF
    p2out := 0xFF }

/-- One branch of `set_pin_to_input` for a P1 bit mask m, lines 127-131:
`P1DIR &= ~m; P1REN |= m; P1OUT &= ~m`. -/
def p1InputBranch (m : Nat) (s : Ports) : Ports :=
  { s with p1dir := s.p1dir &&& (0xFF ^^^ m), p1ren := s.p1ren ||| m,
           p1out := s.p1out &&& (0xFF ^^^ m) }

/-- The same for a P2 bit mask, lines 175-179. -/
def p2InputBranch (m : Nat) (s : Ports) : Ports :=
  { s with p2dir := s.p2dir &&& (0xFF ^^^ m), p2ren := s.p2ren ||| m,
           p2out := s.p2out &&& (0xFF ^^^ m) }

/-- Lines 124-223 of the source: the if chain over pins 0 and 3..15
(branches for 1 and 2 are commented out; any other value falls through
with no effect). -/
def set_pin_to_input (pin : Nat) (s : Ports) : Ports :=
  if pin = 0 then p1InputBranch 0x01 s
  else if pin = 3 then p1InputBranch 0x08 s
  else if pin = 4 then p1InputBranch 0x10 s
  else if pin = 5 then p1InputBranch 0x20 s
  else if pin = 6 then p1InputBranch 0x40 s
  else if pin = 7 then p1InputBranch 0x80 s
  else if pin = 8 then p2InputBranch 0x01 s
  else if pin = 9 then p2InputBranch 0x02 s
  else if pin = 10 then p2InputBranch 0x04 s
  else if pin = 11 then p2InputBranch 0x08 s
  else if pin = 12 then p2InputBranch 0x10 s
  else if pin = 13 then p2InputBranch 0x20 s
  else if pin = 14 then p2InputBranch 0x40 s
  else if pin = 15 then p2InputBranch 0x80 s
  else s

/-- Lines 436-453 of the source: set the swdio pin once to `val`, then
pulse swclk `num` times.  The value of the data pin seen on each of the
`num` clock pulses is `val`, so the emitted data trace is `num` copies
of `val`. -/
def send_fixed_swd_pattern (val : Bool) (num : Nat) : List Bool :=
  List.replicate num val

/-- Lines 463-479 of the source: 16 pulses; each pulse drives swdio with
the current most significant bit of the 16-bit `pattern`, which is then
shifted left by one (`unsigned int` is 16 bits wide on the MSP430). -/
def send_16bit_swd_pattern (pattern : Nat) : List Bool :=
  ((List.range 16).foldl
    (fun (s : Nat × List Bool) _ =>
      ((s.1 <<< 1) % 65536, s.2 ++ [decide (s.1 &&& 0x8000 ≠ 0)]))
    (pattern % 65536, [])).2

/-- Lines 866-873 of the source: the data-pin levels the swd finder
actually clocks out per candidate pair, first pulse to last.  All six
calls are to `send_fixed_swd_pattern`; the two 16-bit constants appear
as pulse counts. -/
def swdPreambleTrace : List Bool :=
  send_fixed_swd_pattern false 8 ++ send_fixed_swd_pattern true 50 ++
  send_fixed_swd_pattern false 0x79e7 ++ send_fixed_swd_pattern false 8 ++
  send_fixed_swd_pattern true 50 ++ send_fixed_swd_pattern false 0x00a5

/-- Modelled from the spec: the emission section 4.5 step 2 requires -
8 zeros, a 50-cycle line reset, the 16-bit interface-switch constant
0xE79E sent most-significant-bit first, 8 more zeros, another 50-cycle
line reset, then the 16-bit value 0x00A5 whose low byte encodes the
identification-read request. -/
def swdSpecTrace : List Bool :=
  List.replicate 8 false ++ List.replicate 50 true ++
  send_16bit_swd_pattern 0xE79E ++ List.replicate 8 false ++
  List.replicate 50 true ++ send_16bit_swd_pattern 0x00A5

/-- Lines 489-500 of the source: count set bits of a 32-bit value by
testing the lsb and shifting right, 32 times. -/
def count_ones (val : Nat) : Nat :=
  ((List.range 32).foldl
    (fun (s : Nat × Nat) _ => (s.1 / 2, if s.1 % 2 = 1 then s.2 + 1 else s.2))
    (val, 0)).2

/-- The (tck, tms, tdo) triples that reach the trial body, in loop order;
the `continue` conditions are those of lines 522-534 (and identically
lines 697-709). -/
def idTriples : List (Nat × Nat × Nat) :=
  (List.range 16).flatMap fun tck =>
    (List.range 16).flatMap fun tms =>
      if tck == tms then [] else
        (List.range 16).filterMap fun tdo =>
          if tck == tdo || tms == tdo then none
          else if tck == 1 || tms == 1 || tdo == 1 then none
          else if tck == 2 || tms == 2 || tdo == 2 then none
          else some (tck, tms, tdo)

/-- The `continue` condition of the tdi loops, lines 612 and 713. -/
def tdiCandOK (tck tms tdo tdi : Nat) : Bool :=
  !(tdi == tck || tdi == tms || tdi == tdo || tdi == 1 || tdi == 2)

/-- The (tck, tms, tdo, tdi) quadruples that reach the bypass trial body,
lines 697-713. -/
def bypassQuads : List (Nat × Nat × Nat × Nat) :=
  idTriples.flatMap fun t =>
    ((List.range 16).filter (tdiCandOK t.1 t.2.1 t.2.2)).map
      fun tdi => (t.1, t.2.1, t.2.2, tdi)

/-- The (swclk, swdio) pairs that reach the swd trial body,
lines 836-842. -/
def swdPairs : List (Nat × Nat) :=
  (List.range 16).flatMap fun swclk =>
    (List.range 16).filterMap fun swdio =>
      if swclk == swdio || swclk == 1 || swdio == 1 || swclk == 2 || swdio == 2
      then none else some (swclk, swdio)

/-- Roles of a triple are pairwise distinct and avoid the reserved uart
pins 1 and 2. -/
def triplePinsOK (t : Nat × Nat × Nat) : Bool :=
  decide (t.1 ≠ t.2.1 ∧ t.1 ≠ t.2.2 ∧ t.2.1 ≠ t.2.2 ∧
    t.1 ≠ 1 ∧ t.2.1 ≠ 1 ∧ t.2.2 ≠ 1 ∧ t.1 ≠ 2 ∧ t.2.1 ≠ 2 ∧ t.2.2 ≠ 2)

/-- Roles of a quadruple are pairwise distinct and avoid pins 1 and 2. -/
def quadPinsOK (q : Nat × Nat × Nat × Nat) : Bool :=
  decide (q.1 ≠ q.2.1 ∧ q.1 ≠ q.2.2.1 ∧ q.1 ≠ q.2.2.2 ∧
    q.2.1 ≠ q.2.2.1 ∧ q.2.1 ≠ q.2.2.2 ∧ q.2.2.1 ≠ q.2.2.2 ∧
    q.1 ≠ 1 ∧ q.2.1 ≠ 1 ∧ q.2.2.1 ≠ 1 ∧ q.2.2.2 ≠ 1 ∧
    q.1 ≠ 2 ∧ q.2.1 ≠ 2 ∧ q.2.2.1 ≠ 2 ∧ q.2.2.2 ≠ 2)

/-- Roles of a pair are distinct and avoid pins 1 and 2. -/
def pairPinsOK (p : Nat × Nat) : Bool :=
  decide (p.1 ≠ p.2 ∧ p.1 ≠ 1 ∧ p.2 ≠ 1 ∧ p.1 ≠ 2 ∧ p.2 ≠ 2)

/-- The tms updates inside the 40-pulse loop, lines 583-588 of the
source (they happen after the pulse of the same index). -/
def idResetTmsUpdate (tms : Bool) (j : Nat) : Bool :=
  if j = 4 then false else if j = 5 then true else if j = 6 then false else tms

/-- The tms level present during pulse j of the 40-pulse id phase:
driven high before the loop (line 574) and updated after each pulse by
`idResetTmsUpdate`. -/
def idTmsAt : Nat → Bool
  | 0 => true
  | j + 1 => idResetTmsUpdate (idTmsAt j) j

/-- The tms levels clocked in by the 40 pulses of the id phase,
lines 574-602 of the source. -/
def idTmsTrace : List Bool := (List.range 40).map idTmsAt

/-- The pulse indices of the id phase on which tdo is sampled: the loop
samples exactly when `j > 7` (line 591 of the source). -/
def idSampledPulses : List Nat := (List.range 40).filter (fun j => 7 < j)

/-- Lines 574-602 of the source: the sampler state after the 40-pulse
loop, which samples tdo on every pulse with j > 7 (`reads k` is the k-th
`read_pin` call of this phase; `byte_prev`, `toggle_count` and `idval`
are reset to 0 at lines 554-556). -/
def idPhase1 (reads : Nat → Bool) : Samp :=
  (List.range 40).foldl
    (fun s j => if 7 < j then observe s (reads (j - 8)) else s)
    ⟨false, 0, 0⟩

/-- The tdi level driven during cycle j of the 512-cycle injection run,
lines 648-652 of the source: `j < 32 && j % 2`. -/
def tdiDrive (j : Nat) : Bool := decide (j < 32 ∧ j % 2 = 1)

/-- Lines 644-658 of the source: the `unsigned char` toggle count `tc`
over the 512 samples of the injection run. -/
def tdiTrialTc (reads : Nat → Bool) : Nat :=
  togCountByte ((List.range 512).map reads)

/-- The acceptance band of the tdi search, line 662 of the source:
`tc > 29 && tc < 35`. -/
def tdiBandOK (tc : Nat) : Bool := decide (29 < tc ∧ tc < 35)

/-- Lines 609-673 of the source: the nested tdi loop.  Every candidate
passing the `continue` condition is trialled in order; each trial flushes
512 unread clocks, then reads 512 samples (so consumes 512 oracle reads)
and records its toggle count.  `r0` is the read index at entry. -/
def idTdiSearch (tck tms tdo : Nat) (oracle : Nat → Bool) (r0 : Nat) :
    List (Nat × Nat) :=
  (((List.range 16).filter (tdiCandOK tck tms tdo)).foldl
    (fun (st : Nat × List (Nat × Nat)) tdi =>
      (st.1 + 512, st.2 ++ [(tdi, tdiTrialTc (fun k => oracle (st.1 + k)))]))
    (r0, [])).2

/-- Result state of the id-method finder: next oracle read index, the
triples and quadruples that reached their trial bodies, the accepted
reports (tck, tms, tdo, tdi, idval) and the return value. -/
structure IdSt where
  ridx : Nat
  testedTriples : List (Nat × Nat × Nat)
  testedQuads : List (Nat × Nat × Nat × Nat)
  accepted : List (Nat × Nat × Nat × Nat × Nat)
  retval : Bool

/-- One outer-loop body of `jtag_finder_id_method`, lines 536-674: run
the 40-pulse id phase on the triple (32 reads), and when its toggle count
exceeds 7 run the nested tdi search, accepting every tdi whose 512-sample
count lies in the (29, 35) band and reporting it together with the
phase-1 idval. -/
def idTripleStep (oracle : Nat → Bool) (st : IdSt) (t : Nat × Nat × Nat) :
    IdSt :=
  let ph := idPhase1 (fun k => oracle (st.ridx + k))
  let st1 : IdSt := { st with ridx := st.ridx + 32,
                              testedTriples := st.testedTriples ++ [t] }
  if 7 < ph.tc then
    let trials := idTdiSearch t.1 t.2.1 t.2.2 oracle st1.ridx
    { st1 with
      ridx := st1.ridx + 512 * trials.length
      testedQuads := st1.testedQuads ++
        trials.map (fun p => (t.1, t.2.1, t.2.2, p.1))
      accepted := st1.accepted ++
        (trials.filter (fun p => tdiBandOK p.2)).map
          (fun p => (t.1, t.2.1, t.2.2, p.1, ph.acc))
      retval := st1.retval || trials.any (fun p => tdiBandOK p.2) }
  else st1

/-- Lines 518-679 of the source. -/
def jtag_finder_id_method (oracle : Nat → Bool) : IdSt :=
  idTriples.foldl (idTripleStep oracle) ⟨0, [], [], [], false⟩

/-- The tms level present during pulse j of the 9-pulse reset loop of
the bypass finder, lines 742-754 (there the update precedes the pulse
of the same index). -/
def bypassResetTmsTrace : List Bool :=
  ((List.range 9).foldl
    (fun (st : Bool × List Bool) j =>
      let t := if j = 5 then false else if j = 6 then true
               else if j = 7 then false else st.1
      (t, st.2 ++ [t]))
    (true, [])).2

/-- Lines 777-780 of the source: tdi is driven high exactly when
`j % 4 == 0` during the 33-cycle measurement. -/
def bypassDrive (j : Nat) : Bool := decide (j % 4 = 0)

/-- Lines 774-797 of the source: the 33-cycle measurement, sampling tdo
each cycle into the sampler state.  `byte_prev`, `toggle_count` and
`idval` all start at 0 (lines 734-736) and no read happens during the
reset and flush phases, so the sampler starts fresh here. -/
def bypassMeasure (reads : Nat → Bool) : Samp :=
  (List.range 33).foldl (fun s j => observe s (reads j)) ⟨false, 0, 0⟩

/-- Line 804 of the source: `toggle_count > 13 && toggle_count < 19`. -/
def bypassBandOK (tc : Nat) : Bool := decide (13 < tc ∧ tc < 19)

/-- Result state of the bypass finder; `cnt1` is the global of line 90,
overwritten with the bit count of `idval` on every trial (line 800). -/
structure BypSt where
  ridx : Nat
  tested : List (Nat × Nat × Nat × Nat)
  accepted : List (Nat × Nat × Nat × Nat × Nat)
  cnt1 : Nat
  retval : Bool

/-- One quadruple trial of the bypass finder, lines 715-815,
parameterised by the bit-count function applied to `idval` at line 800
(the source instantiates it with `count_ones`). -/
def bypassStep (cnt : Nat → Nat) (oracle : Nat → Bool) (st : BypSt)
    (q : Nat × Nat × Nat × Nat) : BypSt :=
  let m := bypassMeasure (fun k => oracle (st.ridx + k))
  let st1 : BypSt := { st with ridx := st.ridx + 33, tested := st.tested ++ [q],
                               cnt1 := cnt m.acc }
  if 13 < m.tc ∧ m.tc < 19 then
    { st1 with
      accepted := st1.accepted ++ [(q.1, q.2.1, q.2.2.1, q.2.2.2, m.acc)],
      retval := true }
  else st1

/-- Lines 693-821 of the source, with the bit-count function abstracted. -/
def bypassFinderWith (cnt : Nat → Nat) (oracle : Nat → Bool) : BypSt :=
  bypassQuads.foldl (bypassStep cnt oracle) ⟨0, [], [], 0, false⟩

/-- Lines 693-821 of the source. -/
def jtag_finder_bypass_method (oracle : Nat → Bool) : BypSt :=
  bypassFinderWith count_ones oracle

/-- Lines 885-903 of the source: 38 clock pulses, sampling the swdio pin
through the sampler on the cycles j with `j > 2 && j < 35` (32 samples;
`reads k` is the k-th read of the trial). -/
def swdMeasure (reads : Nat → Bool) : Samp :=
  (List.range 38).foldl
    (fun s j => if 2 < j ∧ j < 35 then observe s (reads (j - 3)) else s)
    ⟨false, 0, 0⟩

/-- Result state of the swd finder. -/
structure SwdSt where
  ridx : Nat
  tested : List (Nat × Nat)
  accepted : List (Nat × Nat × Nat)
  retval : Bool

/-- One pair trial of the swd finder, lines 844-917: per pair the
preamble `swdPreambleTrace` is emitted (no reads), then 32 samples are
taken and the pair is accepted when more than 7 toggles were seen. -/
def swdStep (oracle : Nat → Bool) (st : SwdSt) (pr : Nat × Nat) : SwdSt :=
  let m := swdMeasure (fun k => oracle (st.ridx + k))
  let st1 : SwdSt := { st with ridx := st.ridx + 32, tested := st.tested ++ [pr] }
  if 7 < m.tc then
    { st1 with accepted := st1.accepted ++ [(pr.1, pr.2, m.acc)], retval := true }
  else st1

/-- Lines 832-921 of the source. -/
def swd_finder (oracle : Nat → Bool) : SwdSt :=
  swdPairs.foldl (swdStep oracle) ⟨0, [], [], false⟩

/-- Line 968 of the source. -/
def idNotFoundMsg : String :=
  "    Did not find a JTAG interface using the JTAG ID method.\r\n"

/-- Line 973 of the source. -/
def bypassNotFoundMsg : String :=
  "    Did not find a JTAG interface using Bypass method.\r\n"

/-- Line 978 of the source. -/
def swdNotFoundMsg : String :=
  "    Did not find a SWD interface.\r\n"

/-- Lines 966-979 of the source: the finder-related lines `setup` prints,
as a function of the three finder return values. -/
def setupReportLines (r1 r2 r3 : Bool) : List String :=
  ["  Start of JTAG Finder using JTAG ID method.\r\n"] ++
  (if r1 then [] else [idNotFoundMsg]) ++
  ["  End of JTAG Finder using JTAG ID method.\r\n\n"] ++
  ["  Start of JTAG Finder using Bypass method.\r\n"] ++
  (if r2 then [] else [bypassNotFoundMsg]) ++
  ["  End of JTAG Finder using Bypass method.\r\n\n"] ++
  ["  Start of SWD Finder.\r\n"] ++
  (if r3 then [] else [swdNotFoundMsg]) ++
  ["  End of SWD Finder.\r\n\n"]

/-- Modelled from the spec: one clock cycle of the simulated bypass
target of section 8 - a single-bit pass-through register.  The cycle
captures the driven tdi bit into the register and presents the previous
register content on tdo: `(new register, tdo output)`. -/
def bypassDevStep (reg d : Bool) : Bool × Bool := (d, reg)

/-- Modelled from the spec: the simulated register after the 64-cycle
flush (tdi is held low from line 743 through the flush), starting from
any register content r0. -/
def simFlushReg (r0 : Bool) : Bool :=
  (List.range 64).foldl (fun reg _ => (bypassDevStep reg false).1) r0

/-- Modelled from the spec: the tdo samples the simulated target yields
during the 33-cycle measurement when driven with `bypassDrive`. -/
def simBypassOuts : List Bool :=
  ((List.range 33).foldl
    (fun (st : Bool × List Bool) j =>
      let r := bypassDevStep st.1 (bypassDrive j)
      (r.1, st.2 ++ [r.2]))
    (simFlushReg false, [])).2

/-- The simulated read stream for the bypass measurement. -/
def simBypassReads (j : Nat) : Bool := simBypassOuts.getD j false

/-- Oracle for the C4 counterexample: every 512-read trial window begins
with 32 alternating samples, so every tdi trial counts 32 toggles. -/
def c4Oracle (r : Nat) : Bool := decide (r % 512 < 32 ∧ r % 512 % 2 = 0)

/-- Read stream for the C6 counterexample: 286 alternating samples, then
constant 0 for the rest of the 512-sample run. -/
def c6Reads (i : Nat) : Bool := decide (i < 286 ∧ i % 2 = 0)

/-- The behaviour claim C4 asserts of the nested tdi search: an accepted
candidate is always the last one evaluated (nothing is evaluated after
the first acceptance). -/
def idStopsAtFirstAccept (l : List (Nat × Nat)) : Prop :=
  ∀ i, (h : i < l.length) → tdiBandOK (l.get ⟨i, h⟩).2 = true →
    i + 1 = l.length

/-- The sample sequence of the spec sampler test vector. -/
def c8Seq : List Bool := [false, false, true, true, false, true]

/-- The sampler run on that sequence from the reset state of
lines 554-556. -/
def c8Run : Samp := c8Seq.foldl observe ⟨false, 0, 0⟩

/-! ## General helper lemmas -/

/-- A predicate preserved by every fold step holds of the fold result. -/
theorem foldlInvariant {α σ : Type} (P : σ → Prop) (f : σ → α → σ) :
    ∀ (l : List α) (s : σ), P s → (∀ s2 a, a ∈ l → P s2 → P (f s2 a)) →
      P (l.foldl f s)
  | [], _, h, _ => h
  | a :: l, s, h, hstep => by
    rw [List.foldl_cons]
    exact foldlInvariant P f l (f s a) (hstep s a (by simp) h)
      (fun s2 b hb => hstep s2 b (List.mem_cons_of_mem a hb))

/-- When every step appends its element to some list-valued field, the
fold appends the whole input list to it. -/
theorem foldlAppendField {α σ : Type} (f : σ → α → σ) (g : σ → List α)
    (hf : ∀ s a, g (f s a) = g s ++ [a]) :
    ∀ (l : List α) (s : σ), g (l.foldl f s) = g s ++ l := by
  intro l
  induction l with
  | nil => simp
  | cons a l ih =>
    intro s
    rw [List.foldl_cons, ih, hf, List.append_assoc]
    rfl

/-- The byte toggle counter is the unbounded toggle count modulo 256. -/
theorem togCountByte_mod (l : List Bool) : togCountByte l = togCountNat l % 256 := by
  suffices h : ∀ (l : List Bool) (p : Bool) (cB cN : Nat), cB = cN % 256 →
      (l.foldl togStep (p, cB)).2 =
        (l.foldl (fun (s : Bool × Nat) b => (b, if b ≠ s.1 then s.2 + 1 else s.2))
          (p, cN)).2 % 256 by
    exact h l false 0 0 rfl
  intro l
  induction l with
  | nil => intro p cB cN h; simpa using h
  | cons b l ih =>
    intro p cB cN h
    rw [List.foldl_cons, List.foldl_cons]
    simp only [togStep]
    by_cases hb : b ≠ p
    · rw [if_pos hb, if_pos hb]
      exact ih b _ _ (by omega)
    · rw [if_neg hb, if_neg hb]
      exact ih b _ _ h

/-! ## Claim theorems -/

/-- Claim C1 (code bug): the swd finder is claimed to clock out, per
candidate pair, 8 zeros, a 50-cycle line reset, the 16-bit
interface-switch constant most-significant-bit first, 8 zeros, a second
line reset, and a 16-bit value whose low byte encodes the
identification-read request.  The code instead passes both 16-bit
constants as pulse counts of `send_fixed_swd_pattern`: the trace it emits
is 31488 constant-level cycles (31207 zeros where the switch pattern
should be, 165 zeros where the request should be) and the two traces
already differ at cycle 58, the first bit of the switch pattern;
`send_16bit_swd_pattern` exists but is called nowhere. -/
theorem claim_C1_swd_emission_bug :
    swdPreambleTrace.length = 31488 ∧ swdSpecTrace.length = 148 ∧
    swdPreambleTrace ≠ swdSpecTrace ∧
    send_16bit_swd_pattern 0xE79E =
      [true, true, true, false, false, true, true, true,
       true, false, false, true, true, true, true, false] ∧
    swdPreambleTrace.take 58 = swdSpecTrace.take 58 ∧
    swdPreambleTrace.get? 58 = some false ∧
    swdSpecTrace.get? 58 = some true := by
  have h1 : swdPreambleTrace.length = 31488 := by
    unfold swdPreambleTrace send_fixed_swd_pattern
    simp only [List.length_append, List.length_replicate]
  have h2 : swdSpecTrace.length = 148 := by decide
  refine ⟨h1, h2, ?_, by decide, by decide, by decide, by decide⟩
  intro h
  have := congrArg List.length h
  rw [h1, h2] at this
  exact absurd this (by norm_num)

/-- Claim C2 (code bug): both input-configuration operations are claimed
to force the configured non-reserved pin levels to 1.  In the code,
`set_all_pins_to_inputs` masks `P1OUT` with `&= 0xF9` (its own comment
says `bit=1`), leaving the non-reserved P1 levels unchanged - from the
all-zero state every P1 level stays 0 - while the P2 half does force
0xFF; and `set_pin_to_input` clears the configured bit, dropping pin 3
from level 1 to level 0 (direction and pull-enable behave as claimed). -/
theorem claim_C2_input_level_bug :
    (set_all_pins_to_inputs ⟨0, 0, 0, 0, 0, 0⟩).p1out = 0 ∧
    (set_all_pins_to_inputs ⟨0, 0, 0, 0, 0, 0⟩).p1dir = 0 ∧
    (set_all_pins_to_inputs ⟨0, 0, 0, 0, 0, 0⟩).p1ren = 0xF9 ∧
    (set_all_pins_to_inputs ⟨0, 0, 0, 0, 0, 0⟩).p2out = 0xFF ∧
    (set_all_pins_to_inputs ⟨0, 0, 0xF9, 0, 0, 0⟩).p1out = 0xF9 ∧
    (set_pin_to_input 3 ⟨0, 0, 0xFF, 0, 0, 0⟩).p1out = 0xF7 ∧
    (set_pin_to_input 3 ⟨0, 0, 0xFF, 0, 0, 0⟩).p1dir = 0 ∧
    (set_pin_to_input 3 ⟨0, 0, 0xFF, 0, 0, 0⟩).p1ren = 0x08 := by
  decide

/-- Claim C5: against the simulated target that passes tdi through to tdo
with a one-cycle delay (register cleared by the 64-cycle flush from any
content), the 33-cycle measurement with tdi driven high exactly on the
cycles divisible by 4 counts exactly 16 toggles, which lies strictly
inside the (13, 19) acceptance band, so the trial is accepted. -/
theorem claim_C5_bypass_simulated_target :
    (∀ r0 : Bool, simFlushReg r0 = false) ∧
    simBypassOuts = false :: (List.range 32).map bypassDrive ∧
    (bypassMeasure simBypassReads).tc = 16 ∧
    (13 < (bypassMeasure simBypassReads).tc ∧
      (bypassMeasure simBypassReads).tc < 19) ∧
    bypassBandOK ((bypassMeasure simBypassReads).tc) = true ∧
    bypassDrive = (fun j => decide (j % 4 = 0)) ∧
    bypassResetTmsTrace.length = 9 := by
  refine ⟨?_, by decide, by decide, by decide, by decide, rfl, by decide⟩
  intro r0
  cases r0 <;> rfl

/-- Claim C8 counterexample: the sampler run on the sequence
(0,0,1,1,0,1) does yield toggle count 3, but the low 6 bits of the final
accumulator are 0, not 0b011010 = 26: the shift-right sampler deposits
the captured bits at the top of the 32-bit word. -/
theorem claim_C8_counterexample : ¬(c8Run.tc = 3 ∧ c8Run.acc % 64 = 26) := by
  decide

/-- Claim C8 (amended): feeding the sampler (0,0,1,1,0,1) yields toggle
count 3 and the final accumulator 0xB0000000: the six captured bits
occupy bits 26..31 (the low 26 bits are zero), and reading bits 26
upward returns the fed sequence in capture order. -/
theorem claim_C8_amended :
    c8Run.tc = 3 ∧ c8Run.acc = 0xB0000000 ∧ c8Run.acc % 2 ^ 26 = 0 ∧
    (List.range 6).map (fun k => decide (c8Run.acc / 2 ^ (26 + k) % 2 = 1)) =
      c8Seq := by
  decide

/-- Auxiliary: the tdi-search fold records exactly the candidate list it
folds over (there is no early exit), whatever the oracle answers. -/
theorem idTdiSearchAux (oracle : Nat → Bool) :
    ∀ (l : List Nat) (r : Nat) (acc : List (Nat × Nat)),
      ((l.foldl
        (fun (st : Nat × List (Nat × Nat)) tdi =>
          (st.1 + 512, st.2 ++ [(tdi, tdiTrialTc (fun k => oracle (st.1 + k)))]))
        (r, acc)).2).map Prod.fst = acc.map Prod.fst ++ l := by
  intro l
  induction l with
  | nil => simp
  | cons a l ih =>
    intro r acc
    rw [List.foldl_cons, ih]
    simp

/-- The tdi candidates the nested search evaluates are exactly the pins
passing the `continue` condition, in pin order - the search never stops
early. -/
theorem idTdiSearch_fst (tck tms tdo : Nat) (oracle : Nat → Bool) (r0 : Nat) :
    (idTdiSearch tck tms tdo oracle r0).map Prod.fst =
      (List.range 16).filter (tdiCandOK tck tms tdo) := by
  unfold idTdiSearch
  rw [idTdiSearchAux]
  simp

/-- The testedTriples field of one id step grows by exactly the triple. -/
theorem idTripleStep_tested (oracle : Nat → Bool) (st : IdSt)
    (t : Nat × Nat × Nat) :
    (idTripleStep oracle st t).testedTriples = st.testedTriples ++ [t] := by
  unfold idTripleStep
  dsimp only
  split <;> rfl

/-- The id finder enumerates every triple of the filtered product. -/
theorem id_testedTriples (oracle : Nat → Bool) :
    (jtag_finder_id_method oracle).testedTriples = idTriples := by
  unfold jtag_finder_id_method
  rw [foldlAppendField (idTripleStep oracle) IdSt.testedTriples
    (idTripleStep_tested oracle) idTriples ⟨0, [], [], [], false⟩]
  rfl

/-- Claim C4 counterexample: for the gate-passing triple (0, 3, 4) and a
read stream giving every tdi trial a toggle count of 32 (inside the
band), the first candidate tdi = 5 is accepted, yet the search still
evaluates all eleven candidates - it does not stop at the first
accepted DataIn pin. -/
theorem claim_C4_counterexample :
    ¬ idStopsAtFirstAccept (idTdiSearch 0 3 4 c4Oracle 0) := by
  have h : idTdiSearch 0 3 4 c4Oracle 0 =
      [(5, 32), (6, 32), (7, 32), (8, 32), (9, 32), (10, 32),
       (11, 32), (12, 32), (13, 32), (14, 32), (15, 32)] := by rfl
  rw [h]
  unfold idStopsAtFirstAccept
  decide

/-- Claim C4 (amended): the nested DataIn search of the JTAG-ID finder
does not stop on an accepted candidate: for every triple and every
oracle it evaluates exactly the full filtered candidate list, and the
outer loops likewise run to completion over every valid triple. -/
theorem claim_C4_amended :
    (∀ tck tms tdo : Nat, ∀ oracle : Nat → Bool, ∀ r0 : Nat,
      (idTdiSearch tck tms tdo oracle r0).map Prod.fst =
        (List.range 16).filter (tdiCandOK tck tms tdo)) ∧
    (∀ oracle : Nat → Bool,
      (jtag_finder_id_method oracle).testedTriples = idTriples) := by
  exact ⟨fun tck tms tdo oracle r0 => idTdiSearch_fst tck tms tdo oracle r0,
    fun oracle => id_testedTriples oracle⟩

/-- Claim C6 counterexample: the 8-bit counter `tc` wraps on the
512-sample run.  With 286 true toggles on tdo the counter reads
286 % 256 = 30 and the candidate is accepted, although the observed
toggle count 286 is far outside the (29, 35) band - so acceptance is
not exactly "toggle count in the band". -/
theorem claim_C6_counterexample :
    tdiBandOK (tdiTrialTc c6Reads) = true ∧
    togCountNat ((List.range 512).map c6Reads) = 286 ∧
    ¬(29 < 286 ∧ (286 : Nat) < 35) := by
  exact ⟨by decide, by decide, by norm_num⟩

/-- Claim C6 (amended): in the second 512-pulse run the injected tdi
level alternates each cycle for the first 32 cycles and is constant 0
for the remaining 480, and a DataIn candidate is accepted exactly when
the toggle count observed on DataOut over the full run, reduced modulo
256 by the 8-bit counter, lies in the band (29, 35). -/
theorem claim_C6_tdi_injection_band :
    (∀ reads : Nat → Bool,
      (tdiBandOK (tdiTrialTc reads) = true ↔
        29 < togCountNat ((List.range 512).map reads) % 256 ∧
          togCountNat ((List.range 512).map reads) % 256 < 35)) ∧
    ((List.range 512).map tdiDrive =
      (List.range 32).map (fun j => decide (j % 2 = 1)) ++
        List.replicate 480 false) ∧
    (∀ j : Nat, j + 1 < 32 → tdiDrive (j + 1) = !tdiDrive j) := by
  refine ⟨?_, by decide, ?_⟩
  · intro reads
    unfold tdiBandOK tdiTrialTc
    rw [togCountByte_mod]
    exact decide_eq_true_iff
  · intro j h
    have h2 : j < 31 := by omega
    interval_cases j <;> decide

/-- Witness for claim C6: the injected pattern alternates between cycles
0 and 1. -/
theorem claim_C6_witness : tdiDrive 1 = !tdiDrive 0 :=
  claim_C6_tdi_injection_band.2.2 0 (by norm_num)

/-- Claim C7: for every candidate triple, the id phase pulses the clock
exactly 40 times with the ModeSelect sequence 1111101 followed by 33
zeros (tms dropped after pulse 4, raised after pulse 5, dropped after
pulse 6), samples DataOut through the sampler on exactly the pulses
8..39 - so its sampler state is the sampler folded over precisely those
32 reads - and the finder step runs the nested DataIn search exactly
when the resulting toggle count exceeds 7. -/
theorem claim_C7_id_reset_gate :
    idTmsTrace =
      List.replicate 5 true ++ [false, true] ++ List.replicate 33 false ∧
    idTmsTrace.length = 40 ∧
    idSampledPulses = List.range' 8 32 ∧
    (∀ reads : Nat → Bool,
      idPhase1 reads = ((List.range 32).map reads).foldl observe ⟨false, 0, 0⟩) ∧
    (∀ oracle : Nat → Bool, ∀ st : IdSt, ∀ t : Nat × Nat × Nat,
      (idTripleStep oracle st t).testedQuads =
        st.testedQuads ++
          (if 7 < (idPhase1 (fun k => oracle (st.ridx + k))).tc then
            ((List.range 16).filter (tdiCandOK t.1 t.2.1 t.2.2)).map
              (fun d => (t.1, t.2.1, t.2.2, d))
          else [])) := by
  refine ⟨by decide, by decide, by decide, fun reads => rfl, ?_⟩
  intro oracle st t
  unfold idTripleStep
  dsimp only
  split
  · rw [show (fun p : Nat × Nat => (t.1, t.2.1, t.2.2, p.1)) =
        ((fun d => (t.1, t.2.1, t.2.2, d)) ∘ Prod.fst) from rfl,
      ← List.map_map, idTdiSearch_fst]
  · simp

/-! ## Enumerated pin facts and per-finder fold lemmas -/

/-- Every enumerated triple has pairwise-distinct, non-reserved roles:
this is exactly what the `continue` conditions enforce. -/
theorem idTriples_pins : idTriples.all triplePinsOK = true := by
  rw [List.all_eq_true]
  intro t ht
  rcases List.mem_flatMap.mp ht with ⟨tck, _, h2⟩
  rcases List.mem_flatMap.mp h2 with ⟨tms, _, h3⟩
  by_cases he : (tck == tms) = true
  · rw [if_pos he] at h3
    simp at h3
  · rw [if_neg he] at h3
    rcases List.mem_filterMap.mp h3 with ⟨tdo, _, h4⟩
    by_cases h5 : (tck == tdo || tms == tdo) = true
    · rw [if_pos h5] at h4
      simp at h4
    · rw [if_neg h5] at h4
      by_cases h6 : (tck == 1 || tms == 1 || tdo == 1) = true
      · rw [if_pos h6] at h4
        simp at h4
      · rw [if_neg h6] at h4
        by_cases h7 : (tck == 2 || tms == 2 || tdo == 2) = true
        · rw [if_pos h7] at h4
          simp at h4
        · rw [if_neg h7] at h4
          cases Option.some.inj h4
          simp only [beq_iff_eq, Bool.or_eq_true, not_or] at he h5 h6 h7
          unfold triplePinsOK
          simp only [decide_eq_true_eq]
          tauto

/-- A tdi pin passing the tdi filter extends a valid triple to a
pairwise-distinct, non-reserved quadruple. -/
theorem tdiCand_extends (t : Nat × Nat × Nat) (d : Nat)
    (h1 : triplePinsOK t = true)
    (h2 : tdiCandOK t.1 t.2.1 t.2.2 d = true) :
    quadPinsOK (t.1, t.2.1, t.2.2, d) = true := by
  unfold triplePinsOK at h1
  unfold tdiCandOK at h2
  unfold quadPinsOK
  simp only [decide_eq_true_eq] at h1 ⊢
  simp only [Bool.not_eq_eq_eq_not, Bool.not_true, Bool.or_eq_false_iff,
    beq_eq_false_iff_ne, ne_eq] at h2
  tauto

/-- Every triple together with any tdi passing its filter forms a
pairwise-distinct, non-reserved quadruple. -/
theorem idQuadCands_pins :
    (idTriples.all fun t =>
      ((List.range 16).filter (tdiCandOK t.1 t.2.1 t.2.2)).all fun d =>
        quadPinsOK (t.1, t.2.1, t.2.2, d)) = true := by
  rw [List.all_eq_true]
  intro t ht
  rw [List.all_eq_true]
  intro d hd
  exact tdiCand_extends t d (List.all_eq_true.mp idTriples_pins t ht)
    (List.of_mem_filter hd)

/-- Every enumerated bypass quadruple has distinct non-reserved roles. -/
theorem bypassQuads_pins : bypassQuads.all quadPinsOK = true := by
  rw [List.all_eq_true]
  intro q hq
  rcases List.mem_flatMap.mp hq with ⟨t, ht, hq2⟩
  rcases List.mem_map.mp hq2 with ⟨d, hd, rfl⟩
  exact List.all_eq_true.mp (List.all_eq_true.mp idQuadCands_pins t ht) d hd

/-- Every enumerated swd pair has distinct non-reserved roles. -/
theorem swdPairs_pins : swdPairs.all pairPinsOK = true := by
  rw [List.all_eq_true]
  intro pr hpr
  rcases List.mem_flatMap.mp hpr with ⟨swclk, _, h2⟩
  rcases List.mem_filterMap.mp h2 with ⟨swdio, _, h3⟩
  by_cases hc : (swclk == swdio || swclk == 1 || swdio == 1 ||
      swclk == 2 || swdio == 2) = true
  · rw [if_pos hc] at h3
    simp at h3
  · rw [if_neg hc] at h3
    cases Option.some.inj h3
    simp only [beq_iff_eq, Bool.or_eq_true, not_or] at hc
    unfold pairPinsOK
    simp only [decide_eq_true_eq]
    tauto

/-- The tested field of one bypass step grows by exactly the quadruple. -/
theorem bypassStep_tested (cnt : Nat → Nat) (oracle : Nat → Bool)
    (st : BypSt) (q : Nat × Nat × Nat × Nat) :
    (bypassStep cnt oracle st q).tested = st.tested ++ [q] := by
  unfold bypassStep
  dsimp only
  split <;> rfl

/-- The bypass finder tests every enumerated quadruple. -/
theorem bypass_tested (cnt : Nat → Nat) (oracle : Nat → Bool) :
    (bypassFinderWith cnt oracle).tested = bypassQuads := by
  unfold bypassFinderWith
  rw [foldlAppendField (bypassStep cnt oracle) BypSt.tested
    (bypassStep_tested cnt oracle) bypassQuads ⟨0, [], [], 0, false⟩]
  rfl

/-- The tested field of one swd step grows by exactly the pair. -/
theorem swdStep_tested (oracle : Nat → Bool) (st : SwdSt) (pr : Nat × Nat) :
    (swdStep oracle st pr).tested = st.tested ++ [pr] := by
  unfold swdStep
  dsimp only
  split <;> rfl

/-- The swd finder tests every enumerated pair. -/
theorem swd_tested (oracle : Nat → Bool) :
    (swd_finder oracle).tested = swdPairs := by
  unfold swd_finder
  rw [foldlAppendField (swdStep oracle) SwdSt.tested
    (swdStep_tested oracle) swdPairs ⟨0, [], [], false⟩]
  rfl

/-- Both pin-validity invariants hold of the id finder state. -/
theorem id_pins_invariant (oracle : Nat → Bool) :
    (jtag_finder_id_method oracle).testedTriples.all triplePinsOK = true ∧
    (jtag_finder_id_method oracle).testedQuads.all quadPinsOK = true := by
  unfold jtag_finder_id_method
  apply foldlInvariant
    (P := fun st : IdSt => st.testedTriples.all triplePinsOK = true ∧
      st.testedQuads.all quadPinsOK = true)
  · exact ⟨rfl, rfl⟩
  · intro st t ht hP
    have hTri : triplePinsOK t = true := List.all_eq_true.mp idTriples_pins t ht
    have hQuadAll := List.all_eq_true.mp idQuadCands_pins t ht
    unfold idTripleStep
    dsimp only
    split
    · refine ⟨?_, ?_⟩
      · rw [List.all_append, hP.1, Bool.true_and]
        simpa using hTri
      · rw [List.all_append, hP.2, Bool.true_and, List.all_eq_true]
        intro q hq
        rcases List.mem_map.mp hq with ⟨p, hp, rfl⟩
        have h1 : p.1 ∈ (List.range 16).filter (tdiCandOK t.1 t.2.1 t.2.2) := by
          rw [← idTdiSearch_fst t.1 t.2.1 t.2.2 oracle (st.ridx + 32)]
          exact List.mem_map_of_mem Prod.fst hp
        exact List.all_eq_true.mp hQuadAll p.1 h1
    · refine ⟨?_, hP.2⟩
      rw [List.all_append, hP.1, Bool.true_and]
      simpa using hTri

/-- Claim C3: in all three finders, every role assignment that reaches
its trial phase has pairwise-distinct role pins, and neither reserved
pin 1 nor 2 ever holds a role: this covers the tested triples and
quadruples of the JTAG-ID finder, the tested quadruples of the bypass
finder and the tested pairs of the SWD finder, for every oracle. -/
theorem claim_C3_roles_distinct_nonreserved :
    ∀ oracle : Nat → Bool,
      (jtag_finder_id_method oracle).testedTriples.all triplePinsOK = true ∧
      (jtag_finder_id_method oracle).testedQuads.all quadPinsOK = true ∧
      (jtag_finder_bypass_method oracle).tested.all quadPinsOK = true ∧
      (swd_finder oracle).tested.all pairPinsOK = true := by
  intro oracle
  refine ⟨(id_pins_invariant oracle).1, (id_pins_invariant oracle).2, ?_, ?_⟩
  · unfold jtag_finder_bypass_method
    rw [bypass_tested]
    exact bypassQuads_pins
  · rw [swd_tested]
    exact swdPairs_pins

/-- Auxiliary: appending the accepted reports of a candidate batch keeps
the correspondence between the or-folded return flag and non-emptiness
of the accepted list. -/
theorem retvalAppendIff {γ β : Type} (r : Bool) (acc : List γ) (l : List β)
    (f : β → Bool) (g : β → γ) (h : r = true ↔ acc ≠ []) :
    ((r || l.any f) = true ↔ acc ++ (l.filter f).map g ≠ []) := by
  have hx : ((l.filter f).map g ≠ []) ↔ l.any f = true := by
    rw [Ne, List.map_eq_nil_iff, List.any_eq_true]
    constructor
    · intro hne
      rcases List.exists_mem_of_ne_nil _ hne with ⟨a, ha⟩
      exact ⟨a, List.mem_of_mem_filter ha, List.of_mem_filter ha⟩
    · rintro ⟨a, ha, hfa⟩ hnil
      rw [List.eq_nil_iff_forall_not_mem] at hnil
      exact hnil a (List.mem_filter.mpr ⟨ha, hfa⟩)
  rw [Bool.or_eq_true, h]
  constructor
  · rintro (ha | ha) hnil
    · rw [List.append_eq_nil] at hnil
      exact ha hnil.1
    · rw [List.append_eq_nil] at hnil
      exact hx.mpr ha hnil.2
  · intro hne
    by_cases ha : acc = []
    · right
      apply hx.mp
      intro hm
      exact hne (by rw [ha, hm]; rfl)
    · exact Or.inl ha

/-- The id finder returns 1 exactly when its accepted list is
non-empty. -/
theorem id_retval_accepted (oracle : Nat → Bool) :
    (jtag_finder_id_method oracle).retval = true ↔
      (jtag_finder_id_method oracle).accepted ≠ [] := by
  unfold jtag_finder_id_method
  apply foldlInvariant
    (P := fun st : IdSt => (st.retval = true ↔ st.accepted ≠ []))
  · simp
  · intro st t _ hP
    unfold idTripleStep
    dsimp only
    split
    · exact retvalAppendIff st.retval st.accepted _ _ _ hP
    · exact hP

/-- The bypass finder returns 1 exactly when its accepted list is
non-empty, for any bit-count function. -/
theorem bypass_retval_accepted (cnt : Nat → Nat) (oracle : Nat → Bool) :
    (bypassFinderWith cnt oracle).retval = true ↔
      (bypassFinderWith cnt oracle).accepted ≠ [] := by
  unfold bypassFinderWith
  apply foldlInvariant
    (P := fun st : BypSt => (st.retval = true ↔ st.accepted ≠ []))
  · simp
  · intro st q _ hP
    unfold bypassStep
    dsimp only
    split
    · simp
    · exact hP

/-- The swd finder returns 1 exactly when its accepted list is
non-empty. -/
theorem swd_retval_accepted (oracle : Nat → Bool) :
    (swd_finder oracle).retval = true ↔
      (swd_finder oracle).accepted ≠ [] := by
  unfold swd_finder
  apply foldlInvariant
    (P := fun st : SwdSt => (st.retval = true ↔ st.accepted ≠ []))
  · simp
  · intro st pr _ hP
    unfold swdStep
    dsimp only
    split
    · simp
    · exact hP

/-- The not-found line of each finder appears in the setup output
exactly when that finder returned 0. -/
theorem setup_not_found_msgs (r1 r2 r3 : Bool) :
    (idNotFoundMsg ∈ setupReportLines r1 r2 r3 ↔ r1 = false) ∧
    (bypassNotFoundMsg ∈ setupReportLines r1 r2 r3 ↔ r2 = false) ∧
    (swdNotFoundMsg ∈ setupReportLines r1 r2 r3 ↔ r3 = false) := by
  cases r1 <;> cases r2 <;> cases r3 <;> refine ⟨?_, ?_, ?_⟩ <;>
    simp [setupReportLines, idNotFoundMsg, bypassNotFoundMsg, swdNotFoundMsg]

/-- Claim C9: each finder returns false exactly when its whole search
space was exhausted without an accepted candidate (the tested lists
always equal the full enumerations), returns true exactly when at least
one candidate was accepted, and setup prints the matching not-found
message exactly on a false return. -/
theorem claim_C9_return_and_report :
    (∀ oracle : Nat → Bool,
      ((jtag_finder_id_method oracle).retval = true ↔
        (jtag_finder_id_method oracle).accepted ≠ [])) ∧
    (∀ oracle : Nat → Bool,
      ((jtag_finder_bypass_method oracle).retval = true ↔
        (jtag_finder_bypass_method oracle).accepted ≠ [])) ∧
    (∀ oracle : Nat → Bool,
      ((swd_finder oracle).retval = true ↔
        (swd_finder oracle).accepted ≠ [])) ∧
    (∀ oracle : Nat → Bool,
      (jtag_finder_id_method oracle).testedTriples = idTriples ∧
      (jtag_finder_bypass_method oracle).tested = bypassQuads ∧
      (swd_finder oracle).tested = swdPairs) ∧
    (∀ r1 r2 r3 : Bool,
      (idNotFoundMsg ∈ setupReportLines r1 r2 r3 ↔ r1 = false) ∧
      (bypassNotFoundMsg ∈ setupReportLines r1 r2 r3 ↔ r2 = false) ∧
      (swdNotFoundMsg ∈ setupReportLines r1 r2 r3 ↔ r3 = false)) := by
  refine ⟨id_retval_accepted, fun oracle => ?_, swd_retval_accepted,
    fun oracle => ⟨id_testedTriples oracle, ?_, swd_tested oracle⟩,
    setup_not_found_msgs⟩
  · exact bypass_retval_accepted count_ones oracle
  · exact bypass_tested count_ones oracle

/-- One bypass step keeps all fields except cnt1 in agreement between
two runs that differ only in the bit-count function. -/
theorem bypassStepAgree (f g : Nat → Nat) (oracle : Nat → Bool)
    (s1 s2 : BypSt) (q : Nat × Nat × Nat × Nat)
    (h1 : s1.ridx = s2.ridx) (h2 : s1.tested = s2.tested)
    (h3 : s1.accepted = s2.accepted) (h4 : s1.retval = s2.retval) :
    (bypassStep f oracle s1 q).ridx = (bypassStep g oracle s2 q).ridx ∧
    (bypassStep f oracle s1 q).tested = (bypassStep g oracle s2 q).tested ∧
    (bypassStep f oracle s1 q).accepted = (bypassStep g oracle s2 q).accepted ∧
    (bypassStep f oracle s1 q).retval = (bypassStep g oracle s2 q).retval := by
  unfold bypassStep
  dsimp only
  rw [h1, h2, h3, h4]
  by_cases hc : 13 < (bypassMeasure fun k => oracle (s2.ridx + k)).tc ∧
      (bypassMeasure fun k => oracle (s2.ridx + k)).tc < 19
  · rw [if_pos hc, if_pos hc]
    exact ⟨rfl, rfl, rfl, rfl⟩
  · rw [if_neg hc, if_neg hc]
    exact ⟨rfl, rfl, rfl, rfl⟩

/-- The whole bypass fold keeps those fields in agreement. -/
theorem bypassFoldAgree (f g : Nat → Nat) (oracle : Nat → Bool) :
    ∀ (l : List (Nat × Nat × Nat × Nat)) (s1 s2 : BypSt),
      s1.ridx = s2.ridx → s1.tested = s2.tested → s1.accepted = s2.accepted →
      s1.retval = s2.retval →
      (l.foldl (bypassStep f oracle) s1).ridx =
        (l.foldl (bypassStep g oracle) s2).ridx ∧
      (l.foldl (bypassStep f oracle) s1).tested =
        (l.foldl (bypassStep g oracle) s2).tested ∧
      (l.foldl (bypassStep f oracle) s1).accepted =
        (l.foldl (bypassStep g oracle) s2).accepted ∧
      (l.foldl (bypassStep f oracle) s1).retval =
        (l.foldl (bypassStep g oracle) s2).retval := by
  intro l
  induction l with
  | nil => intro s1 s2 h1 h2 h3 h4; exact ⟨h1, h2, h3, h4⟩
  | cons q l ih =>
    intro s1 s2 h1 h2 h3 h4
    rw [List.foldl_cons, List.foldl_cons]
    have hs := bypassStepAgree f g oracle s1 s2 q h1 h2 h3 h4
    exact ih _ _ hs.1 hs.2.1 hs.2.2.1 hs.2.2.2

/-- Claim C10: in the bypass finder the verdict, the returned flag and
every reported list are unchanged under replacing the bit-count function
applied to the captured word - count_ones is computed but inert - and
acceptance of a trial is a function of its toggle count alone, namely
membership of the strict band between 13 and 19. -/
theorem claim_C10_count_ones_inert :
    (∀ f g : Nat → Nat, ∀ oracle : Nat → Bool,
      (bypassFinderWith f oracle).retval = (bypassFinderWith g oracle).retval ∧
      (bypassFinderWith f oracle).accepted =
        (bypassFinderWith g oracle).accepted ∧
      (bypassFinderWith f oracle).tested = (bypassFinderWith g oracle).tested) ∧
    jtag_finder_bypass_method = bypassFinderWith count_ones ∧
    (∀ r1 r2 : Nat → Bool,
      (bypassMeasure r1).tc = (bypassMeasure r2).tc →
      bypassBandOK ((bypassMeasure r1).tc) =
        bypassBandOK ((bypassMeasure r2).tc)) ∧
    (∀ tc : Nat, bypassBandOK tc = true ↔ 13 < tc ∧ tc < 19) := by
  refine ⟨fun f g oracle => ?_, rfl, fun r1 r2 h => by rw [h], fun tc => ?_⟩
  · have hs := bypassFoldAgree f g oracle bypassQuads
      ⟨0, [], [], 0, false⟩ ⟨0, [], [], 0, false⟩ rfl rfl rfl rfl
    exact ⟨hs.2.2.2, hs.2.2.1, hs.2.1⟩
  · unfold bypassBandOK
    exact decide_eq_true_iff

/-- Witness for claim C10: two different read streams with the same
toggle count yield the same verdict. -/
theorem claim_C10_witness :
    bypassBandOK ((bypassMeasure (fun k => decide (k = 0))).tc) =
      bypassBandOK ((bypassMeasure (fun k => decide (k = 5))).tc) :=
  claim_C10_count_ones_inert.2.2.1 (fun k => decide (k = 0))
    (fun k => decide (k = 5)) (by decide)
